import Mathlib

/-
Verification of the native streaming backend (src-tauri/src/streaming.rs and
src-tauri/src/main.rs): a shallow embedding of the data model, the Windows
window-enumeration filter, the two argument builders, the environment
composer, the capability probe and the stream-supervisor state machine,
together with theorems settling the specification claims.

Modelling conventions:
- Rust u32 values are Nat; where a u32 multiplication can wrap in release
  mode, the embedding takes the result modulo 2^32 explicitly.
- Rust strings are Lean String; lengths and slices are in characters
  (the source titles of interest are ASCII).
- Fallible Rust functions returning Result are Except String.
- The per-slot Mutex fields of StreamingState are inlined as plain fields
  (SharedState.last_error and SharedState.is_running included); lock
  poisoning is not modelled, so lock-acquiring operations are pure.
-/

/-- Character-list starts-with: models Rust str::starts_with. -/
def listStartsWith : List Char → List Char → Bool
  | _, [] => true
  | [], _ => false
  | a :: l, b :: m => a == b && listStartsWith l m

/-- Models Rust `s.starts_with(pre)`. -/
def strStartsWith (s pre : String) : Bool :=
  listStartsWith s.toList pre.toList

/-- Character-list substring containment helper. -/
def listContainsSub : List Char → List Char → Bool
  | [], pat => pat.isEmpty
  | a :: rest, pat => listStartsWith (a :: rest) pat || listContainsSub rest pat

/-- Models Rust `s.contains(pat)` (substring containment). -/
def strContainsSub (s pat : String) : Bool :=
  listContainsSub s.toList pat.toList

/-- Streaming backend (streaming.rs, enum StreamBackend; GStreamer is the default). -/
inductive StreamBackend where
  | FFmpeg
  | GStreamer
deriving Repr, DecidableEq

/-- Capture source (streaming.rs, struct CaptureSource). -/
structure CaptureSource where
  id : String
  name : String
  source_type : String
  width : Option Nat
  height : Option Nat
deriving Repr, DecidableEq

/-- Stream configuration (streaming.rs, struct StreamConfig); bitrate is in kbps. -/
structure StreamConfig where
  source_id : String
  whip_url : String
  width : Nat
  height : Nat
  fps : Nat
  bitrate : Nat
  encoder : String
  preset : String
  audio_enabled : Bool
  bearer_token : Option String
  backend : StreamBackend
  turn_server : Option String
deriving Repr, DecidableEq

/-- Stream status (streaming.rs, struct StreamStatus). -/
structure StreamStatus where
  active : Bool
  source_id : Option String
  whip_url : Option String
  duration_seconds : Nat
  error : Option String
  backend : Option String
deriving Repr, DecidableEq

/-- FFmpeg availability info (streaming.rs, struct FFmpegInfo). -/
structure FFmpegInfo where
  available : Bool
  version : Option String
  encoders : List String
  whip_support : Bool
deriving Repr, DecidableEq

/-- An observed top-level window, as seen by enum_callback through the
Windows API: IsWindowVisible, GetWindowLongW(GWL_EXSTYLE), the window text,
and the GetWindowRect result (none when the call fails). -/
structure WindowInfo where
  visible : Bool
  ex_style : Nat
  title : String
  rect : Option (Int × Int × Int × Int)
deriving Repr, DecidableEq

/-- WS_EX_TOOLWINDOW extended-style bit (0x80). -/
def WS_EX_TOOLWINDOW : Nat := 128

/-- Rect width as computed in enum_callback: (right - left) as u32. -/
def rectWidth (r : Int × Int × Int × Int) : Nat :=
  ((r.2.2.1 - r.1) % (4294967296 : Int)).toNat

/-- Rect height as computed in enum_callback: (bottom - top) as u32. -/
def rectHeight (r : Int × Int × Int × Int) : Nat :=
  ((r.2.2.2 - r.2.1) % (4294967296 : Int)).toNat

/-- The fixed system-window denylist of enum_callback (streaming.rs, skip_titles). -/
def skip_titles : List String :=
  ["Program Manager", "Windows Input Experience", "Microsoft Text Input",
   "NVIDIA GeForce Overlay", "AMD Software", "Settings", "Task View", "Search", ""]

/-- Character-level model of Rust title.replace with the one-character
pattern a double-quote: each quote becomes backslash-quote. -/
def escapeQuotes : List Char → List Char
  | [] => []
  | ch :: rest =>
    if ch == '"' then '\\' :: '"' :: escapeQuotes rest
    else ch :: escapeQuotes rest

/-- Models Rust `title.replace("\"", "\\\"")`. -/
def escape_title (t : String) : String := (escapeQuotes t.toList).asString

/-- Models Rust `&title[..n]` (the titles of interest are ASCII, so byte
indices coincide with character indices). -/
def strTake (t : String) (n : Nat) : String := (t.toList.take n).asString

/-- The CaptureSource pushed by enum_callback for a surviving window:
id is title=<title> with double-quotes escaped, the display name is the
title truncated to its first 42 characters plus an ellipsis when the title
length exceeds 45. -/
def window_capture_source (title : String) (width height : Nat) : CaptureSource :=
  let escaped_title := escape_title title
  { id := "title=" ++ escaped_title,
    name := if title.length > 45 then (strTake title 42) ++ "..." else title,
    source_type := "window",
    width := some width,
    height := some height }

/-- The primary-display entry (streaming.rs, pushed first by list_windows_sources_safe). -/
def desktop_source : CaptureSource :=
  { id := "desktop", name := "Desktop (Full Screen)", source_type := "screen",
    width := none, height := none }

/-- The EnumWindows loop of list_windows_sources_safe: enum_callback applied
to each window in turn, threading the sources vector; returning sources
unchanged models returning BOOL(1) (continue) without a push, and stopping
models BOOL(0). -/
def enum_windows : List WindowInfo → List CaptureSource → List CaptureSource
  | [], sources => sources
  | w :: ws, sources =>
    if !w.visible then enum_windows ws sources
    else if w.ex_style &&& WS_EX_TOOLWINDOW != 0 then enum_windows ws sources
    else if w.title.length = 0 then enum_windows ws sources
    else if skip_titles.any (fun s => strStartsWith w.title s || w.title == s) then
      enum_windows ws sources
    else
      match w.rect with
      | none => enum_windows ws sources
      | some r =>
        let width := rectWidth r
        let height := rectHeight r
        if width < 200 ∨ height < 150 then enum_windows ws sources
        else if sources.length ≥ 21 then sources
        else enum_windows ws (sources ++ [window_capture_source w.title width height])

/-- streaming.rs list_windows_sources_safe: desktop entry first, then the
surviving windows from EnumWindows. -/
def list_windows_sources_safe (ws : List WindowInfo) : Except String (List CaptureSource) :=
  Except.ok (enum_windows ws [desktop_source])

/-- streaming.rs list_capture_sources (Windows branch): any error or empty
result collapses to the single-desktop fallback. -/
def list_capture_sources (ws : List WindowInfo) : Except String (List CaptureSource) :=
  match list_windows_sources_safe ws with
  | Except.ok sources =>
    if sources.isEmpty then Except.ok [desktop_source] else Except.ok sources
  | Except.error _ => Except.ok [desktop_source]

/-- streaming.rs get_gstreamer_env. The host resource directory is abstract
(none when path_resolver cannot resolve it); path_sep is the separator that
PathBuf::join renders with on the build platform. The PATH entry joins the
bundled bin directory and the inherited PATH with a literal ";" (the
format string in the source). The HashMap is modelled as an association
list in insertion order. -/
def get_gstreamer_env (path_sep : String) (resource_dir : Option String)
    (inherited_path : String) : List (String × String) :=
  match resource_dir with
  | none => []
  | some r =>
    let gst_bin := r ++ path_sep ++ "gstreamer" ++ path_sep ++ "bin"
    let gst_plugins :=
      r ++ path_sep ++ "gstreamer" ++ path_sep ++ "lib" ++ path_sep ++ "gstreamer-1.0"
    [("GST_PLUGIN_PATH", gst_plugins),
     ("GST_PLUGIN_SYSTEM_PATH", ""),
     ("PATH", gst_bin ++ ";" ++ inherited_path),
     ("GST_REGISTRY_UPDATE", "no")]

/-- streaming.rs build_gstreamer_args: bitrate_bps = (config.bitrate * 1000)
as u64, where the u32 multiplication wraps modulo 2^32. -/
def bitrate_bps (c : StreamConfig) : Nat := (c.bitrate * 1000) % 4294967296

/-- streaming.rs build_gstreamer_args: min_bitrate = max(bitrate_bps / 4, 500_000). -/
def min_bitrate (c : StreamConfig) : Nat := max (bitrate_bps c / 4) 500000

/-- streaming.rs build_gstreamer_args: start_bitrate = bitrate_bps * 80 / 100. -/
def start_bitrate (c : StreamConfig) : Nat := bitrate_bps c * 80 / 100

/-- streaming.rs build_gstreamer_args: max_bitrate = bitrate_bps * 150 / 100. -/
def max_bitrate (c : StreamConfig) : Nat := bitrate_bps c * 150 / 100

/-- The whipclientsink segment of the GStreamer pipeline (streaming.rs,
whip_args in build_gstreamer_args). -/
def gst_whip_sink (c : StreamConfig) : String :=
  "whipclientsink name=whip min-bitrate=" ++ toString (min_bitrate c)
    ++ " max-bitrate=" ++ toString (max_bitrate c)
    ++ " start-bitrate=" ++ toString (start_bitrate c)
    ++ " congestion-control=gcc signaller::whip-endpoint=\"" ++ c.whip_url ++ "\""
    ++ (match c.bearer_token with
        | some token => " signaller::auth-token=\"" ++ token ++ "\""
        | none => "")
    ++ (match c.turn_server with
        | some turn => " turn-servers=<\"" ++ turn ++ "\">"
        | none => "")

/-- streaming.rs build_gstreamer_args, Windows cfg branch: the pipeline
parts in order. Both arms of the source-id test push the same
d3d11screencapturesrc element (window capture by title is a TODO in the
source), and the if is kept to mirror the code. -/
def gst_pipeline_parts (c : StreamConfig) : List String :=
  (if strStartsWith c.source_id "title=" then
    ["d3d11screencapturesrc monitor-index=0 show-cursor=true"]
   else
    ["d3d11screencapturesrc monitor-index=0 show-cursor=true"])
  ++ ["'video/x-raw(memory:D3D11Memory),framerate=" ++ toString c.fps ++ "/1'",
      "d3d11convert",
      "'video/x-raw(memory:D3D11Memory),format=NV12,width=" ++ toString c.width
        ++ ",height=" ++ toString c.height ++ "'",
      gst_whip_sink c]

/-- streaming.rs build_gstreamer_args (Windows cfg branch): two arguments,
-e and the !-joined pipeline string. The function never returns an error. -/
def build_gstreamer_args (c : StreamConfig) : Except String (List String) :=
  Except.ok ["-e", String.intercalate " ! " (gst_pipeline_parts c)]

/-- streaming.rs build_ffmpeg_args: the global low-latency prelude. -/
def ff_global_args : List String :=
  ["-hide_banner", "-loglevel", "info",
   "-fflags", "+genpts+nobuffer+flush_packets",
   "-flags", "low_delay", "-max_delay", "0", "-y", "-nostdin"]

/-- streaming.rs build_ffmpeg_args, Windows cfg branch: the capture input
section, keyed on the source id and (for desktop) on the encoder. -/
def ff_input_args (c : StreamConfig) : List String :=
  if strStartsWith c.source_id "title=" then
    ["-rtbufsize", "64M", "-thread_queue_size", "512", "-probesize", "32",
     "-analyzeduration", "0", "-f", "gdigrab", "-draw_mouse", "1",
     "-framerate", toString c.fps, "-i", c.source_id]
    ++ (if c.encoder = "nvenc" then
          ["-vf", "scale=" ++ toString c.width ++ ":" ++ toString c.height
            ++ ":flags=fast_bilinear,format=yuv420p"]
        else
          ["-vf", "scale=" ++ toString c.width ++ ":" ++ toString c.height
            ++ ":flags=fast_bilinear"])
  else if c.encoder = "nvenc" then
    ["-rtbufsize", "64M", "-thread_queue_size", "512", "-probesize", "32",
     "-analyzeduration", "0", "-f", "gdigrab", "-draw_mouse", "1",
     "-framerate", toString c.fps,
     "-video_size", toString c.width ++ "x" ++ toString c.height,
     "-offset_x", "0", "-offset_y", "0", "-i", "desktop",
     "-vf", "scale=" ++ toString c.width ++ ":" ++ toString c.height
       ++ ":flags=fast_bilinear,format=nv12"]
  else
    ["-rtbufsize", "64M", "-thread_queue_size", "512", "-probesize", "32",
     "-analyzeduration", "0", "-f", "gdigrab", "-draw_mouse", "1",
     "-framerate", toString c.fps,
     "-video_size", "2560x1440",
     "-offset_x", "0", "-offset_y", "0", "-i", "desktop",
     "-vf", "scale=" ++ toString c.width ++ ":" ++ toString c.height
       ++ ":flags=fast_bilinear"]

/-- streaming.rs build_ffmpeg_args: the libx264 fallback encoder block
(the wildcard arm of the encoder match). The u32 multiplication fps * 2
wraps modulo 2^32. -/
def ff_x264_args (c : StreamConfig) : List String :=
  ["-c:v", "libx264", "-preset", "ultrafast", "-tune", "zerolatency",
   "-profile:v", "baseline", "-bf", "0",
   "-b:v", toString c.bitrate ++ "k",
   "-bufsize", toString (c.bitrate / 4) ++ "k",
   "-g", toString ((c.fps * 2) % 4294967296),
   "-threads", "1"]

/-- streaming.rs build_ffmpeg_args: the encoder match on config.encoder;
any value other than nvenc, qsv, amf, mf takes the x264 fallback arm. -/
def ff_encoder_args (c : StreamConfig) : List String :=
  if c.encoder = "nvenc" then
    ["-c:v", "h264_nvenc", "-preset", "p1",
     "-b:v", toString c.bitrate ++ "k", "-bf", "0",
     "-g", toString ((c.fps * 2) % 4294967296)]
  else if c.encoder = "qsv" then
    ["-c:v", "h264_qsv", "-preset", "veryfast", "-profile:v", "baseline",
     "-bf", "0", "-b:v", toString c.bitrate ++ "k",
     "-g", toString ((c.fps * 2) % 4294967296)]
  else if c.encoder = "amf" then
    ["-c:v", "h264_amf", "-usage", "ultralowlatency", "-profile:v", "baseline",
     "-bf", "0", "-b:v", toString c.bitrate ++ "k",
     "-g", toString ((c.fps * 2) % 4294967296)]
  else if c.encoder = "mf" then
    ["-c:v", "h264_mf", "-rate_control", "4", "-scenario", "4",
     "-hw_encoding", "1", "-profile:v", "baseline", "-bf", "0",
     "-b:v", toString c.bitrate ++ "k",
     "-g", toString ((c.fps * 2) % 4294967296)]
  else
    ff_x264_args c

/-- streaming.rs build_ffmpeg_args: audio section. -/
def ff_audio_args (c : StreamConfig) : List String :=
  if c.audio_enabled then
    ["-c:a", "libopus", "-ar", "48000", "-ac", "2", "-b:a", "128k"]
  else
    ["-an"]

/-- streaming.rs build_ffmpeg_args: the WHIP output tail. -/
def ff_output_args (c : StreamConfig) : List String :=
  ["-flush_packets", "1", "-ts_buffer_size", "1048576",
   "-whip_flags", "dtls_active", "-f", "whip"]
  ++ (match c.bearer_token with
      | some token => ["-authorization", token]
      | none => [])
  ++ [c.whip_url]

/-- streaming.rs build_ffmpeg_args (Windows cfg branch): the full argument
list; -pix_fmt yuv420p is appended for every encoder except nvenc. The
function never returns an error. -/
def build_ffmpeg_args (c : StreamConfig) : Except String (List String) :=
  Except.ok (ff_global_args ++ ff_input_args c ++ ff_encoder_args c
    ++ (if c.encoder = "nvenc" then [] else ["-pix_fmt", "yuv420p"])
    ++ ff_audio_args c
    ++ ff_output_args c)

/-- streaming.rs StreamingState, with the per-slot Mutexes and the nested
SharedState (last_error, is_running) inlined; stream_child holds a unit
token standing for the CommandChild handle. -/
structure StreamingState where
  stream_child : Option Unit
  current_config : Option StreamConfig
  start_time : Option Nat
  last_error : Option String
  is_running : Bool
  current_backend : Option StreamBackend
deriving Repr, DecidableEq

/-- streaming.rs impl Default for StreamingState. -/
def StreamingState.initial : StreamingState :=
  { stream_child := none, current_config := none, start_time := none,
    last_error := none, is_running := false, current_backend := none }

/-- streaming.rs start_stream. spawn is the outcome of sidecar creation
plus spawn (an error before any state slot is written); now is the Instant
captured for start_time. On success the child, config, start time and
backend are set, last_error is cleared and is_running becomes true. -/
def start_stream (spawn : Except String Unit) (now : Nat) (config : StreamConfig)
    (s : StreamingState) : Except String Unit × StreamingState :=
  if s.stream_child.isSome then
    (Except.error "Already streaming", s)
  else
    match (match config.backend with
           | StreamBackend.GStreamer => build_gstreamer_args config
           | StreamBackend.FFmpeg => build_ffmpeg_args config) with
    | Except.error e => (Except.error e, s)
    | Except.ok _ =>
      match spawn with
      | Except.error e => (Except.error e, s)
      | Except.ok _ =>
        (Except.ok (),
         { stream_child := some (),
           current_config := some config,
           start_time := some now,
           last_error := none,
           is_running := true,
           current_backend := some config.backend })

/-- streaming.rs stop_stream: takes and kills the child, clears config,
start_time and backend, sets is_running to false, leaves last_error alone,
and always returns Ok. -/
def stop_stream (s : StreamingState) : Except String Unit × StreamingState :=
  (Except.ok (),
   { stream_child := none,
     current_config := none,
     start_time := none,
     last_error := s.last_error,
     is_running := false,
     current_backend := none })

/-- Child process events consumed by the drain task (tauri CommandEvent);
the Terminated payload (exit code and signal) is only logged by the source
and is omitted, and the remaining variants fall into the wildcard no-op arm. -/
inductive ChildEvent where
  | stderrLine (line : String)
  | stdoutLine (line : String)
  | terminated
deriving Repr, DecidableEq

/-- The body of the drain task spawned by start_stream: a stderr line
containing Error, error or ERROR overwrites last_error; a stdout line is
only logged; the termination event sets is_running to false. No other
state slot is touched: in particular stream_child is NOT cleared. -/
def drain_event (ev : ChildEvent) (s : StreamingState) : StreamingState :=
  match ev with
  | ChildEvent.stderrLine line =>
    if strContainsSub line "Error" || strContainsSub line "error"
        || strContainsSub line "ERROR" then
      { s with last_error := some line }
    else s
  | ChildEvent.stdoutLine _ => s
  | ChildEvent.terminated => { s with is_running := false }

/-- streaming.rs get_stream_status: active is stream_child.is_some();
duration is the elapsed time since start_time (0 when unset); the backend
is rendered lowercase. The is_running flag is not consulted. -/
def get_stream_status (now : Nat) (s : StreamingState) : StreamStatus :=
  { active := s.stream_child.isSome,
    source_id := s.current_config.map (fun c => c.source_id),
    whip_url := s.current_config.map (fun c => c.whip_url),
    duration_seconds :=
      match s.start_time with
      | some t => now - t
      | none => 0,
    error := s.last_error,
    backend := s.current_backend.map (fun b =>
      match b with
      | StreamBackend.FFmpeg => "ffmpeg"
      | StreamBackend.GStreamer => "gstreamer") }

/-- Captured output of one sidecar invocation (tauri Output). -/
structure SidecarOutput where
  stdout : String
  stderr : String
deriving Repr, DecidableEq

/-- The all-false FFmpegInfo returned when the -version probe fails. -/
def ffmpeg_unavailable : FFmpegInfo :=
  { available := false, version := none, encoders := [], whip_support := false }

/-- Models Rust str::split_whitespace: split on whitespace, drop empties. -/
def splitWhite (s : String) : List String :=
  (s.split (fun ch => ch.isWhitespace)).filter (fun t => t ≠ "")

/-- streaming.rs check_ffmpeg, as a function of the outcomes of its three
sidecar invocations (-version, -encoders -hide_banner, -muxers
-hide_banner). Each createK is the Command::new_sidecar result (propagated
with the question-mark operator) and outK the corresponding .output()
result. Only a failed -version output folds into available:false; the
later .output() failures are propagated as errors. -/
def check_ffmpeg (create1 : Except String Unit) (out1 : Except String SidecarOutput)
    (create2 : Except String Unit) (out2 : Except String SidecarOutput)
    (create3 : Except String Unit) (out3 : Except String SidecarOutput) :
    Except String FFmpegInfo :=
  match create1 with
  | Except.error e => Except.error e
  | Except.ok _ =>
    match out1 with
    | Except.error _ => Except.ok ffmpeg_unavailable
    | Except.ok version_output =>
      let version :=
        ((version_output.stdout.splitOn "\n").head?).bind
          (fun l => (splitWhite l)[2]?)
      match create2 with
      | Except.error e => Except.error e
      | Except.ok _ =>
        match out2 with
        | Except.error e => Except.error e
        | Except.ok encoders_output =>
          let es := encoders_output.stdout
          let encoders :=
            (if strContainsSub es "h264_nvenc" then ["nvenc"] else [])
            ++ (if strContainsSub es "h264_qsv" then ["qsv"] else [])
            ++ (if strContainsSub es "h264_amf" then ["amf"] else [])
            ++ (if strContainsSub es "h264_mf" then ["mf"] else [])
            ++ (if strContainsSub es "libx264" then ["x264"] else [])
          match create3 with
          | Except.error e => Except.error e
          | Except.ok _ =>
            match out3 with
            | Except.error e => Except.error e
            | Except.ok formats_output =>
              Except.ok
                { available := true,
                  version := version,
                  encoders := encoders,
                  whip_support := strContainsSub formats_output.stdout " whip " }

/-- main.rs: the commands passed to tauri::generate_handler in the
invoke_handler call, in order. -/
def registered_commands : List String :=
  ["list_capture_sources", "start_stream", "stop_stream",
   "get_stream_status", "check_ffmpeg"]

/-- Claim-side window predicate for C1, written from the spec's words: the
window is visible, its tool-window bit is clear, its title is non-empty,
its title does not start with any member of the fixed denylist (which
includes the empty string), and its rectangle is at least 200 wide and
150 high. -/
def c1_spec_keep (w : WindowInfo) : Bool :=
  w.visible
    && (w.ex_style &&& WS_EX_TOOLWINDOW == 0)
    && (w.title != "")
    && (skip_titles.all fun s => !(strStartsWith w.title s))
    && (match w.rect with
        | some r => decide (200 ≤ rectWidth r) && decide (150 ≤ rectHeight r)
        | none => false)

/-- Claim-side width of a window (0 when the rectangle is unavailable). -/
def c1_spec_width (w : WindowInfo) : Nat :=
  match w.rect with
  | some r => rectWidth r
  | none => 0

/-- Claim-side height of a window (0 when the rectangle is unavailable). -/
def c1_spec_height (w : WindowInfo) : Nat :=
  match w.rect with
  | some r => rectHeight r
  | none => 0

/-- Every string starts with the empty string. -/
theorem listStartsWith_nil (l : List Char) : listStartsWith l [] = true := by
  cases l <;> rfl

/-- The denylist test of enum_callback is true for every title, because the
empty string is a member and every title starts with it. -/
theorem skip_titles_any_true (t : String) :
    (skip_titles.any fun s => strStartsWith t s || t == s) = true := by
  refine List.any_eq_true.mpr ⟨"", by simp [skip_titles], ?_⟩
  have h : strStartsWith t "" = true := listStartsWith_nil t.toList
  simp [h]

/-- The claim-side predicate is likewise false on every window: no title
avoids starting with the empty denylist member. -/
theorem c1_spec_keep_false (w : WindowInfo) : c1_spec_keep w = false := by
  have h : strStartsWith w.title "" = true := listStartsWith_nil w.title.toList
  simp [c1_spec_keep, skip_titles, h]

/-- The enumeration loop never adds a window: every window trips the
denylist test. -/
theorem enum_windows_fixed (ws : List WindowInfo) (acc : List CaptureSource) :
    enum_windows ws acc = acc := by
  induction ws with
  | nil => rfl
  | cons w ws ih =>
    simp [enum_windows, skip_titles_any_true, ih]

/-- C1: on Windows, list_capture_sources emits a CaptureSource for a
top-level window if and only if the window is visible, its tool-window bit
is clear, its title is non-empty, its title does not start with any member
of the fixed denylist (Program Manager, Windows Input Experience,
Microsoft Text Input, NVIDIA GeForce Overlay, AMD Software, Settings,
Task View, Search, and empty), and its rectangle is at least 200x150,
subject to the 20-window cap: the output is exactly the desktop entry
followed by the first 20 windows satisfying the claim's predicate. Both
sides keep no window at all, because the empty string is in the denylist
and every title starts with it. -/
theorem c1_enumeration_filter (ws : List WindowInfo) :
    list_capture_sources ws =
      Except.ok (desktop_source ::
        ((ws.filter (fun w => c1_spec_keep w)).take 20).map
          (fun w => window_capture_source w.title (c1_spec_width w) (c1_spec_height w))) := by
  have hfilter : ws.filter (fun w => c1_spec_keep w) = [] := by
    simp [List.filter_eq_nil_iff, c1_spec_keep_false]
  simp [list_capture_sources, list_windows_sources_safe, enum_windows_fixed, hfilter,
    desktop_source]

/-- A concrete GStreamer-backend configuration used by the concrete runs. -/
def cfg_example : StreamConfig :=
  { source_id := "desktop", whip_url := "https://example/whip", width := 1280,
    height := 720, fps := 30, bitrate := 4000, encoder := "x264", preset := "",
    audio_enabled := false, bearer_token := none,
    backend := StreamBackend.GStreamer, turn_server := none }

/-- The same configuration with a 1 kbps bitrate. -/
def cfg_low_bitrate : StreamConfig := { cfg_example with bitrate := 1 }

/-- C2 counterexample: for bitrate_kbps = 1 (which is positive) the
whipclientsink bitrates of build_gstreamer_args have min-bitrate = 500000
and start-bitrate = 800, so min-bitrate ≤ start-bitrate fails: the claim's
chain min ≤ start ≤ max does not hold for every positive bitrate. -/
theorem c2_low_bitrate_breaks_chain :
    0 < cfg_low_bitrate.bitrate ∧
    start_bitrate cfg_low_bitrate < min_bitrate cfg_low_bitrate ∧
    min_bitrate cfg_low_bitrate = 500000 ∧
    start_bitrate cfg_low_bitrate = 800 := by
  refine ⟨by decide, by decide, by decide, by decide⟩

/-- C2 as amended: whenever the wrapped target rate bitrate_bps =
(bitrate_kbps * 1000) mod 2^32 is at least 625000 (in particular for any
bitrate_kbps from 625 to 4294967), the whipclientsink bitrates of
build_gstreamer_args satisfy min-bitrate ≥ 500000 and
min-bitrate ≤ start-bitrate ≤ max-bitrate; for smaller positive targets
min-bitrate exceeds start-bitrate. -/
theorem c2_bitrate_chain (c : StreamConfig) (h : 625000 ≤ bitrate_bps c) :
    500000 ≤ min_bitrate c ∧
    min_bitrate c ≤ start_bitrate c ∧
    start_bitrate c ≤ max_bitrate c := by
  unfold min_bitrate start_bitrate max_bitrate
  generalize bitrate_bps c = b at h ⊢
  omega

/-- Witness for c2_bitrate_chain at the concrete 4000 kbps configuration. -/
theorem c2_bitrate_chain_witness :
    625000 ≤ bitrate_bps cfg_example ∧
    (500000 ≤ min_bitrate cfg_example ∧
     min_bitrate cfg_example ≤ start_bitrate cfg_example ∧
     start_bitrate cfg_example ≤ max_bitrate cfg_example) :=
  ⟨by decide, c2_bitrate_chain cfg_example (by decide)⟩

/-- C3: the claim says that after the drain task receives the termination
event (and before any further start or stop) get_stream_status reports the
stream inactive. The code only flips the write-only is_running flag: the
stream_child slot is never cleared by the drain task, and active is
computed as stream_child.is_some(), so the status still reports
active = true after the child has exited. Concrete run: a successful
start_stream followed by the Terminated event. -/
theorem c3_terminated_still_active :
    (start_stream (Except.ok ()) 0 cfg_example StreamingState.initial).1
        = Except.ok () ∧
    (get_stream_status 5 (drain_event ChildEvent.terminated
        (start_stream (Except.ok ()) 0 cfg_example StreamingState.initial).2)).active
        = true ∧
    (drain_event ChildEvent.terminated
        (start_stream (Except.ok ()) 0 cfg_example StreamingState.initial).2).is_running
        = false := by
  refine ⟨rfl, rfl, rfl⟩

/-- C4 counterexample: with the -version invocation succeeding and the
-encoders invocation's output() failing, check_ffmpeg returns an Err
instead of folding the failure into available:false. -/
theorem c4_encoders_probe_error_surfaces :
    check_ffmpeg (Except.ok ()) (Except.ok ⟨"ffmpeg version 6.0", ""⟩)
        (Except.ok ()) (Except.error "probe failed")
        (Except.ok ()) (Except.ok ⟨"", ""⟩)
      = Except.error "probe failed" := by
  rfl

/-- C4 as amended: only a failure of the first (-version) output folds into
available:false; a failure to create any sidecar command, or a failure of
the -encoders or -muxers output, propagates as an Err result. -/
theorem c4_probe_error_routing :
    (∀ (e : String) (c2 : Except String Unit) (o2 : Except String SidecarOutput)
        (c3 : Except String Unit) (o3 : Except String SidecarOutput),
      check_ffmpeg (Except.ok ()) (Except.error e) c2 o2 c3 o3
        = Except.ok ffmpeg_unavailable) ∧
    (∀ (e : String) (o1 : Except String SidecarOutput) (c2 : Except String Unit)
        (o2 : Except String SidecarOutput) (c3 : Except String Unit)
        (o3 : Except String SidecarOutput),
      check_ffmpeg (Except.error e) o1 c2 o2 c3 o3 = Except.error e) ∧
    (∀ (e : String) (v : SidecarOutput) (c3 : Except String Unit)
        (o3 : Except String SidecarOutput),
      check_ffmpeg (Except.ok ()) (Except.ok v) (Except.ok ()) (Except.error e) c3 o3
        = Except.error e) ∧
    (∀ (e : String) (v enc : SidecarOutput),
      check_ffmpeg (Except.ok ()) (Except.ok v) (Except.ok ()) (Except.ok enc)
          (Except.ok ()) (Except.error e)
        = Except.error e) := by
  refine ⟨fun e c2 o2 c3 o3 => rfl, fun e o1 c2 o2 c3 o3 => rfl,
    fun e v c3 o3 => rfl, fun e v enc => rfl⟩

/-- Claim-side display name for C5, written from the claim's words: the
title truncated to 42 characters followed by an ellipsis whenever the
title exceeds 42 characters, otherwise the full title. -/
def c5_spec_name (title : String) : String :=
  if title.length > 42 then (strTake title 42) ++ "..." else title

/-- Claim-side id for C5: title=<un-truncated title> with every
double-quote escaped as backslash-quote. -/
def c5_spec_id (title : String) : String :=
  "title=" ++ escape_title title

/-- A 43-character window title. -/
def c5_title_43 : String := "aaaaaaaaaaaaaaaaaaaaaaaaaaaaaaaaaaaaaaaaaaa"

/-- C5 counterexample: for a 43-character title the code keeps the full
title as the display name (the source truncates only for length > 45),
while the claim's rule truncates at 42 characters — the two disagree. -/
theorem c5_threshold_counterexample :
    c5_title_43.length = 43 ∧
    (window_capture_source c5_title_43 300 200).name = c5_title_43 ∧
    c5_spec_name c5_title_43 = (strTake c5_title_43 42) ++ "..." ∧
    ((window_capture_source c5_title_43 300 200).name == c5_spec_name c5_title_43)
      = false := by
  refine ⟨by decide, by decide, by decide, by decide⟩

/-- C5 as amended: for every window the enumeration emits, the id is
title=<un-truncated title> with every double-quote escaped as
backslash-quote, and the display name is the title truncated to its first
42 characters followed by an ellipsis whenever the title exceeds 45
characters (otherwise the full title). -/
theorem c5_emitted_name_and_id (title : String) (width height : Nat) :
    (window_capture_source title width height).id = c5_spec_id title ∧
    (window_capture_source title width height).name
      = (if title.length > 45 then (strTake title 42) ++ "..." else title) := by
  exact ⟨rfl, rfl⟩

/-- Claim-side PATH value for C6, written from the claim's words: the
bundled bin directory followed by the inherited PATH, joined with the
operating system's list separator, which is a semicolon on Windows and a
colon elsewhere. -/
def c6_spec_path (is_windows : Bool) (gst_bin inherited : String) : String :=
  gst_bin ++ (if is_windows then ";" else ":") ++ inherited

/-- C6 counterexample: on a non-Windows platform (path separator "/",
list separator ":") the environment map built by get_gstreamer_env joins
PATH with a semicolon, not with the OS list separator demanded by the
claim. -/
theorem c6_path_separator_counterexample :
    (get_gstreamer_env "/" (some "R") "P").lookup "PATH"
        = some "R/gstreamer/bin;P" ∧
    c6_spec_path false "R/gstreamer/bin" "P" = "R/gstreamer/bin:P" ∧
    (("R/gstreamer/bin;P" : String) == "R/gstreamer/bin:P") = false := by
  refine ⟨by decide, by decide, by decide⟩

/-- C6 as amended: the environment map composed for the GStreamer sidecar
sets PATH to the bundled gstreamer/bin directory followed by the inherited
PATH, joined with a literal semicolon on every platform (which coincides
with the OS list separator only on Windows). -/
theorem c6_path_entry (path_sep r inherited : String) :
    (get_gstreamer_env path_sep (some r) inherited).lookup "PATH"
      = some ((r ++ path_sep ++ "gstreamer" ++ path_sep ++ "bin")
          ++ ";" ++ inherited) := by
  rfl

/-- C7: stop_stream always returns success and clears the child, config,
start-time and backend slots while setting is_running to false and leaving
last_error untouched; a successful start_stream (idle state, successful
spawn) clears last_error; a start_stream rejected because a child is held,
or one whose spawn fails, leaves last_error unchanged; and no drain event
ever resets a present last_error to none. -/
theorem c7_last_error_lifecycle (s : StreamingState) (now : Nat) (c : StreamConfig)
    (sp : Except String Unit) (e : String) (ev : ChildEvent) (l : String) :
    (stop_stream s).1 = Except.ok () ∧
    (stop_stream s).2.last_error = s.last_error ∧
    (stop_stream s).2.stream_child = none ∧
    (stop_stream s).2.current_config = none ∧
    (stop_stream s).2.start_time = none ∧
    (stop_stream s).2.current_backend = none ∧
    (stop_stream s).2.is_running = false ∧
    (start_stream (Except.ok ()) now c { s with stream_child := none }).1
      = Except.ok () ∧
    (start_stream (Except.ok ()) now c { s with stream_child := none }).2.last_error
      = none ∧
    (start_stream sp now c { s with stream_child := some () }).1
      = Except.error "Already streaming" ∧
    (start_stream sp now c { s with stream_child := some () }).2.last_error
      = s.last_error ∧
    (start_stream (Except.error e) now c { s with stream_child := none }).2.last_error
      = s.last_error ∧
    (drain_event ev { s with last_error := some l }).last_error.isSome = true := by
  refine ⟨rfl, rfl, rfl, rfl, rfl, rfl, rfl, ?_, ?_, rfl, rfl, ?_, ?_⟩
  · cases hb : c.backend <;> simp [start_stream, build_gstreamer_args, build_ffmpeg_args, hb]
  · cases hb : c.backend <;> simp [start_stream, build_gstreamer_args, build_ffmpeg_args, hb]
  · cases hb : c.backend <;> simp [start_stream, build_gstreamer_args, build_ffmpeg_args, hb]
  · cases ev with
    | stderrLine line =>
      by_cases h : (strContainsSub line "Error" || strContainsSub line "error"
          || strContainsSub line "ERROR") = true
      · simp [drain_event, h]
      · simp [drain_event, h]
    | stdoutLine line => rfl
    | terminated => rfl

/-- Claim-side command surface for C8: the six operations the spec's
interface table lists, in table order. -/
def c8_spec_command_table : List String :=
  ["list_capture_sources", "start_stream", "stop_stream",
   "get_stream_status", "check_ffmpeg", "check_gstreamer"]

/-- C8 counterexample: check_gstreamer appears in the spec's interface
table but is absent from the invoke handler of main.rs, so it is not
externally callable from the UI. -/
theorem c8_check_gstreamer_not_registered :
    (c8_spec_command_table.contains "check_gstreamer") = true ∧
    (registered_commands.contains "check_gstreamer") = false := by
  refine ⟨by decide, by decide⟩

/-- C8 as amended: the registered invoke-handler commands are exactly the
spec's interface table minus check_gstreamer; every other table operation
is externally callable. -/
theorem c8_registered_commands :
    registered_commands
      = c8_spec_command_table.filter (fun c => c != "check_gstreamer") := by
  decide

/-- C9: both argument builders are total — for every StreamConfig each
returns Ok — and consequently a start_stream from the idle state with a
successful spawn succeeds: the ConfigInvalid failure the spec reserves for
a rejected config is unreachable. -/
theorem c9_builders_never_fail (c : StreamConfig) (now : Nat) (s : StreamingState) :
    (∃ args, build_ffmpeg_args c = Except.ok args) ∧
    (∃ args, build_gstreamer_args c = Except.ok args) ∧
    (start_stream (Except.ok ()) now c { s with stream_child := none }).1
      = Except.ok () := by
  refine ⟨⟨_, rfl⟩, ⟨_, rfl⟩, ?_⟩
  cases hb : c.backend <;> simp [start_stream, build_gstreamer_args, build_ffmpeg_args, hb]

/-- C10: any encoder value other than nvenc, qsv, amf and mf falls into
the wildcard arm of the encoder match, so build_ffmpeg_args emits the
libx264 software block and produces exactly the argument list it would
produce for encoder x264. -/
theorem c10_unknown_encoder_is_x264 (c : StreamConfig)
    (h1 : c.encoder ≠ "nvenc") (h2 : c.encoder ≠ "qsv")
    (h3 : c.encoder ≠ "amf") (h4 : c.encoder ≠ "mf") :
    ff_encoder_args c = ff_x264_args c ∧
    build_ffmpeg_args c = build_ffmpeg_args { c with encoder := "x264" } := by
  constructor
  · simp [ff_encoder_args, h1, h2, h3, h4]
  · simp [build_ffmpeg_args, ff_encoder_args, ff_input_args, ff_x264_args,
      ff_audio_args, ff_output_args, h1, h2, h3, h4]

/-- A configuration whose encoder string matches none of the recognized
encoder names. -/
def cfg_unknown_encoder : StreamConfig := { cfg_example with encoder := "h265" }

/-- Witness for c10_unknown_encoder_is_x264 at the concrete configuration
with encoder h265. -/
theorem c10_unknown_encoder_is_x264_witness :
    ff_encoder_args cfg_unknown_encoder = ff_x264_args cfg_unknown_encoder ∧
    build_ffmpeg_args cfg_unknown_encoder
      = build_ffmpeg_args { cfg_unknown_encoder with encoder := "x264" } :=
  c10_unknown_encoder_is_x264 cfg_unknown_encoder
    (by decide) (by decide) (by decide) (by decide)
